import Mathlib

/-!
Verification model of the CRYENGINE Sandbox Asset Browser panel
(`Code/Sandbox/Plugins/EditorCommon/AssetSystem/Browser/AssetBrowser.cpp`).

The file shallowly embeds the UI-local logic of the asset browser:
the sort comparator of `SortFilterProxyModel`, the confirmation flow of
rename/delete operations, layout save/restore (`GetLayout`/`SetLayout`),
the navigation back/forward history, the recursive view/search toggles
(`UpdateModels`), the import entry point (`OnImport`), and the batched
visible-thumbnail refresh (`TouchVisibleAssetsBatched`).

External collaborators (Qt widgets, the asset manager, dialogs, the file
dialog, the drop handler, the thumbnail loader) are modelled as explicit
inputs: dialog results and manager queries become fields of environment
records, and widget properties that the browser writes (button enabled
state, visibility flags, splitter state blobs) become fields of the
browser state record.  Machine `int` values are modelled as `Int`.
-/

/-! ## QVariant / QVariantMap

Model of the Qt variant values that `GetLayout`/`SetLayout` traffic in.
`invalid` is the default-constructed variant returned by
`QVariantMap::value` for a missing key.  Byte arrays are opaque blobs;
the base-64 encoding applied by `GetLayout` (`saveState().toBase64()`)
and undone by `SetLayout` (`QByteArray::fromBase64`) is a bijection on
blobs and is absorbed into the opaque representation. -/

inductive QVariant where
  | invalid : QVariant
  | vInt : Int → QVariant
  | vBool : Bool → QVariant
  | vBytes : String → QVariant
  | vMap : List (String × QVariant) → QVariant

abbrev QVariantMap := List (String × QVariant)

def QVariant.isValid : QVariant → Bool
  | .invalid => false
  | _ => true

def QVariant.toInt : QVariant → Int
  | .vInt i => i
  | .vBool b => bif b then 1 else 0
  | _ => 0

def QVariant.toBool : QVariant → Bool
  | .vBool b => b
  | .vInt i => decide (i ≠ 0)
  | _ => false

def QVariant.toByteArray : QVariant → String
  | .vBytes s => s
  | _ => ""

def QVariant.isMapType : QVariant → Bool
  | .vMap _ => true
  | _ => false

def QVariant.toMap : QVariant → QVariantMap
  | .vMap m => m
  | _ => []

/-- `QVariantMap::value k`: the stored variant, or an invalid variant when
the key is absent. -/
def qvalue (m : QVariantMap) (k : String) : QVariant :=
  match m with
  | [] => .invalid
  | (k2, v) :: rest => if k2 = k then v else qvalue rest k

/-- `QVariantMap::insert k v`: inserts `v` under `k`, replacing any
previous entry for `k`. -/
def qinsert (m : QVariantMap) (k : String) (v : QVariant) : QVariantMap :=
  (k, v) :: m.filter (fun e => e.1 ≠ k)

/-! ## The browser state

One record per live `CAssetBrowser` object.  Fields named `m_...` are the
C++ data members; the remaining fields are the externally owned widget /
model properties that the browser reads and writes:

* `searchBoxEmpty`, `hasActiveFilters` — `m_filterPanel` search state;
* `folderFilterRecursive`, `folderFilterShowFolders`, `acceptedFolders`
  — state of `m_pFolderFilterModel`;
* `backButtonEnabled`, `forwardButtonEnabled` — `m_backButton` /
  `m_forwardButton` enabled properties;
* `mainViewSplitterState`, `foldersSplitterState` — opaque
  `saveState`/`restoreState` blobs of the two splitters;
* `filtersState`, `detailsViewState`, `thumbnailViewState`,
  `foldersViewState` — opaque `GetState`/`SetState` maps of the panels;
* `breadcrumbsVisible`, `multipleFoldersLabelVisible`,
  `breadcrumbsFolder` — address bar state (the pretty-path formatting of
  the breadcrumbs is external presentation; the selected folder is kept);
* `thumbnailRootFolder`, `detailsRootFolder` — the views' root folders
  (`none` models a null `QString`);
* `viewModeButtonsChecked` — checked state of the view-mode buttons.

The `ASSET_BROWSER_USE_PREVIEW_WIDGET` sections are compiled out in the
source and are not modelled. -/

structure CAssetBrowser where
  m_viewMode : Int
  m_recursiveView : Bool
  m_recursiveSearch : Bool
  m_navigationHistory : List (List String)
  m_navigationIndex : Int
  m_dontPushNavHistory : Bool
  searchBoxEmpty : Bool
  hasActiveFilters : Bool
  folderFilterRecursive : Bool
  folderFilterShowFolders : Bool
  acceptedFolders : List String
  backButtonEnabled : Bool
  forwardButtonEnabled : Bool
  mainViewSplitterState : String
  foldersSplitterState : String
  mainViewSplitterVertical : Bool
  thumbnailViewVisible : Bool
  detailsViewVisible : Bool
  foldersViewVisible : Bool
  filtersState : QVariantMap
  detailsViewState : QVariantMap
  thumbnailViewState : QVariantMap
  foldersViewState : QVariantMap
  breadcrumbsVisible : Bool
  multipleFoldersLabelVisible : Bool
  breadcrumbsFolder : String
  thumbnailRootFolder : Option String
  detailsRootFolder : Option String
  viewModeButtonsChecked : List Bool

/-- `CAssetBrowser::ViewMode` enumerators (`Details, Thumbnails, HSplit,
VSplit, Max`).  The C++ enum travels through `(int)` casts in the layout
map, so the view mode is carried as `Int`. -/
def ViewMode.Details : Int := 0
def ViewMode.Thumbnails : Int := 1
def ViewMode.HSplit : Int := 2
def ViewMode.VSplit : Int := 3
def ViewMode.Max : Int := 4

/-! ## Recursive view / search and model update -/

/-- `CAssetBrowser::UpdateModels`: swaps the folder filter model to the
recursive mode when a recursive search is active, and otherwise keeps the
model's recursive flag in sync with the recursive-view flag. -/
def CAssetBrowser.UpdateModels (s : CAssetBrowser) : CAssetBrowser :=
  let searching := !s.searchBoxEmpty || s.hasActiveFilters
  if searching && s.m_recursiveSearch && !s.folderFilterRecursive then
    { s with folderFilterShowFolders := false, folderFilterRecursive := true }
  else if !searching && (s.m_recursiveView != s.folderFilterRecursive) then
    { s with folderFilterRecursive := s.m_recursiveView,
             folderFilterShowFolders := !s.m_recursiveView }
  else s

/-- `CAssetBrowser::SetRecursiveView`. -/
def CAssetBrowser.SetRecursiveView (s : CAssetBrowser) (recursiveView : Bool) :
    CAssetBrowser :=
  if s.m_recursiveView != recursiveView then
    CAssetBrowser.UpdateModels { s with m_recursiveView := recursiveView }
  else s

/-- `CAssetBrowser::SetRecursiveSearch`. -/
def CAssetBrowser.SetRecursiveSearch (s : CAssetBrowser) (recursiveSearch : Bool) :
    CAssetBrowser :=
  if s.m_recursiveSearch != recursiveSearch then
    CAssetBrowser.UpdateModels { s with m_recursiveSearch := recursiveSearch }
  else s

/-- `CAssetBrowser::SetViewMode`: updates the view visibilities and the
stored mode when the mode changes (the `default` switch case only raises
a debug assertion and still falls through to the assignment). -/
def CAssetBrowser.SetViewMode (s : CAssetBrowser) (viewMode : Int) : CAssetBrowser :=
  if s.m_viewMode != viewMode then
    let s :=
      if viewMode = ViewMode.Details then
        { s with thumbnailViewVisible := false, detailsViewVisible := true }
      else if viewMode = ViewMode.Thumbnails then
        { s with thumbnailViewVisible := true, detailsViewVisible := false }
      else if viewMode = ViewMode.HSplit ∨ viewMode = ViewMode.VSplit then
        { s with thumbnailViewVisible := true, detailsViewVisible := true,
                 mainViewSplitterVertical := decide (viewMode = ViewMode.VSplit) }
      else s
    { s with m_viewMode := viewMode,
             viewModeButtonsChecked :=
               (List.range 4).map (fun i => decide ((i : Int) = viewMode)) }
  else s

/-! ## Navigation -/

/-- `CAssetBrowser::UpdateNavigation`: optionally clears the history and
then refreshes the enabled state of the back/forward buttons. -/
def CAssetBrowser.UpdateNavigation (s : CAssetBrowser) (clearHistory : Bool) :
    CAssetBrowser :=
  let s :=
    if clearHistory then
      { s with m_navigationHistory := [], m_navigationIndex := -1 }
    else s
  { s with
    backButtonEnabled :=
      decide (0 < s.m_navigationHistory.length ∧ -1 < s.m_navigationIndex),
    forwardButtonEnabled :=
      decide (s.m_navigationHistory.length ≠ 0 ∧
        s.m_navigationIndex < (s.m_navigationHistory.length : Int) - 1) }

/-- `CAssetBrowser::OnFolderSelectionChanged`: updates the address bar and
the views' root folders, hands the selection to the folder filter model,
pushes the selection onto the navigation history (dropping any forward
entries) unless navigation itself triggered the change, and refreshes the
navigation buttons.  `selectedFolders.first()` on the single/empty branch
is modelled by `headD ""`. -/
def CAssetBrowser.OnFolderSelectionChanged (s : CAssetBrowser)
    (selectedFolders : List String) : CAssetBrowser :=
  let numFolders := selectedFolders.length
  let s :=
    if numFolders > 1 then
      { s with breadcrumbsVisible := false, multipleFoldersLabelVisible := true,
               thumbnailRootFolder := none, detailsRootFolder := none }
    else
      { s with breadcrumbsVisible := true, multipleFoldersLabelVisible := false,
               breadcrumbsFolder := selectedFolders.headD "",
               thumbnailRootFolder := some (selectedFolders.headD ""),
               detailsRootFolder := some (selectedFolders.headD "") }
  let s := { s with acceptedFolders := selectedFolders }
  let s :=
    if !s.m_dontPushNavHistory then
      let hist :=
        if s.m_navigationIndex < (s.m_navigationHistory.length : Int) - 1 then
          s.m_navigationHistory.take (s.m_navigationIndex + 1).toNat
        else s.m_navigationHistory
      { s with m_navigationHistory := hist ++ [selectedFolders],
               m_navigationIndex := s.m_navigationIndex + 1 }
    else s
  s.UpdateNavigation false

/-- Effect of `OnNavBack`/`OnNavForward` on the folders view
(`CAssetFoldersView::ClearSelection` / `SelectFolders`). -/
inductive SelectionEffect where
  | clearSelection : SelectionEffect
  | selectFolders : List String → SelectionEffect

/-- `CAssetBrowser::OnNavBack`.  `SelectFolders` synchronously re-enters
`OnFolderSelectionChanged` through `signalSelectionChanged` while
`m_dontPushNavHistory` is set, which is modelled by the nested call; the
slot's reaction to `ClearSelection` belongs to the external
`CAssetFoldersView` and is represented by the returned effect alone.
`m_navigationHistory[m_navigationIndex]` is modelled with `getD`. -/
def CAssetBrowser.OnNavBack (s : CAssetBrowser) : CAssetBrowser × SelectionEffect :=
  let s := { s with m_dontPushNavHistory := true }
  let s :=
    if s.m_navigationIndex ≥ 0 then
      { s with m_navigationIndex := s.m_navigationIndex - 1 }
    else s
  if s.m_navigationIndex = -1 then
    ({ s with m_dontPushNavHistory := false }, .clearSelection)
  else
    let folders := s.m_navigationHistory.getD s.m_navigationIndex.toNat []
    ({ s.OnFolderSelectionChanged folders with m_dontPushNavHistory := false },
     .selectFolders folders)

/-- `CAssetBrowser::OnNavForward` (reached only through the forward
button, which is enabled only by `UpdateNavigation`). -/
def CAssetBrowser.OnNavForward (s : CAssetBrowser) : CAssetBrowser × SelectionEffect :=
  let s := { s with m_dontPushNavHistory := true }
  let s := { s with m_navigationIndex := s.m_navigationIndex + 1 }
  let folders := s.m_navigationHistory.getD s.m_navigationIndex.toNat []
  ({ s.OnFolderSelectionChanged folders with m_dontPushNavHistory := false },
   .selectFolders folders)

/-! ## Layout persistence -/

/-- `CAssetBrowser::GetLayout`.  `base` stands for the map returned by
`CDockableEditor::GetLayout()` (external base class). -/
def CAssetBrowser.GetLayout (base : QVariantMap) (s : CAssetBrowser) : QVariantMap :=
  let m := base
  let m := qinsert m "mainViewSplitter" (.vBytes s.mainViewSplitterState)
  let m := qinsert m "foldersSplitter" (.vBytes s.foldersSplitterState)
  let m := qinsert m "viewMode" (.vInt s.m_viewMode)
  let m := qinsert m "recursiveView" (.vBool s.m_recursiveView)
  let m := qinsert m "recursiveSearch" (.vBool s.m_recursiveSearch)
  let m := qinsert m "showFolders" (.vBool s.foldersViewVisible)
  let m := qinsert m "filters" (.vMap s.filtersState)
  let m := qinsert m "detailsView" (.vMap s.detailsViewState)
  let m := qinsert m "thumbnailView" (.vMap s.thumbnailViewState)
  qinsert m "foldersView" (.vMap s.foldersViewState)

/-- `CAssetBrowser::SetLayout`.  `CDockableEditor::SetLayout(state)` is
the external base class and touches none of the modelled fields. -/
def CAssetBrowser.SetLayout (s : CAssetBrowser) (state : QVariantMap) : CAssetBrowser :=
  let s :=
    if (qvalue state "mainViewSplitter").isValid then
      { s with mainViewSplitterState := (qvalue state "mainViewSplitter").toByteArray }
    else s
  let s :=
    if (qvalue state "foldersSplitter").isValid then
      { s with foldersSplitterState := (qvalue state "foldersSplitter").toByteArray }
    else s
  let s :=
    if (qvalue state "viewMode").isValid then
      s.SetViewMode (qvalue state "viewMode").toInt
    else s
  let s :=
    if (qvalue state "recursiveView").isValid then
      s.SetRecursiveView (qvalue state "recursiveView").toBool
    else s
  let s :=
    if (qvalue state "recursiveSearch").isValid then
      s.SetRecursiveSearch (qvalue state "recursiveSearch").toBool
    else s
  let s :=
    if (qvalue state "showFolders").isValid then
      { s with foldersViewVisible := (qvalue state "showFolders").toBool }
    else s
  let s :=
    if (qvalue state "filters").isValid && (qvalue state "filters").isMapType then
      { s with filtersState := (qvalue state "filters").toMap }
    else s
  let s :=
    if (qvalue state "detailsView").isValid && (qvalue state "detailsView").isMapType then
      { s with detailsViewState := (qvalue state "detailsView").toMap }
    else s
  let s :=
    if (qvalue state "thumbnailView").isValid && (qvalue state "thumbnailView").isMapType then
      { s with thumbnailViewState := (qvalue state "thumbnailView").toMap }
    else s
  let s :=
    if (qvalue state "foldersView").isValid && (qvalue state "foldersView").isMapType then
      { s with foldersViewState := (qvalue state "foldersView").toMap }
    else s
  s.UpdateNavigation true

/-! ## Sorting (`Private_AssetBrowser::SortFilterProxyModel::lessThan`) -/

/-- `EAssetModelRowType`: the value stored under
`CAssetModel::Roles::TypeCheckRole` of a model row. -/
inductive EAssetModelRowType where
  | eAssetModelRow_Asset : EAssetModelRowType
  | eAssetModelRow_Folder : EAssetModelRowType
deriving DecidableEq

/-- Role data of one model row as read by `lessThan`: the type-check
role, the sort-role payload (compared through `QVariant::operator==`),
and the `InternalPointerRole` value (an `intptr_t`). -/
structure SortRowData where
  rowType : EAssetModelRowType
  sortData : Int
  internalPointer : Int

/-- `SortFilterProxyModel::lessThan`.  `baseLessThan` stands for the
inherited `QAttributeFilterProxyModel::lessThan` comparison that is
delegated to when both rows have the same type and distinct sort data. -/
def SortFilterProxyModel.lessThan
    (baseLessThan : SortRowData → SortRowData → Bool)
    (left right : SortRowData) : Bool :=
  if left.rowType = right.rowType then
    if left.sortData = right.sortData then
      decide (left.internalPointer < right.internalPointer)
    else baseLessThan left right
  else decide (left.rowType = .eAssetModelRow_Folder)

/-! ## Confirmation dialogs (rename / delete) -/

/-- `CAsset`: only the parts observed by the modelled code. -/
structure CAsset where
  name : String

/-- Environment of the modal-dialog flows: the asset manager's
reverse-dependency query and the outcome of the two dialog kinds
(`CAssetReverseDependenciesDialog::Execute` and
`CQuestionDialog::SQuestion == QDialogButtonBox::Yes`). -/
structure DialogEnv where
  hasAnyReverseDependencies : List CAsset → Bool
  reverseDepsDialogConfirmed : Bool
  questionDialogYes : Bool

/-- Which confirmation dialog was displayed. -/
inductive ConfirmationDialog where
  | reverseDependencies : ConfirmationDialog
  | question : ConfirmationDialog
deriving DecidableEq

/-- Result of a confirmation flow: the dialog that was shown and whether
the user confirmed. -/
structure ConfirmResult where
  dialogShown : ConfirmationDialog
  confirmed : Bool

/-- `UserConfirmsRenaming` (file-static helper): shows the
reverse-dependencies dialog when the asset has reverse dependencies and
a plain question dialog otherwise; returns whether the user accepted. -/
def UserConfirmsRenaming (env : DialogEnv) (asset : CAsset) : ConfirmResult :=
  if env.hasAnyReverseDependencies [asset] then
    { dialogShown := .reverseDependencies, confirmed := env.reverseDepsDialogConfirmed }
  else
    { dialogShown := .question, confirmed := env.questionDialogYes }

/-- Observable outcome of `CAssetBrowser::OnDelete`: the dialog shown and
the asset list passed to `CAssetManager::DeleteAssetsWithFiles`
(`none` when no deletion was performed). -/
structure DeleteOutcome where
  dialogShown : Option ConfirmationDialog
  deletedAssets : Option (List CAsset)

/-- `CAssetBrowser::OnDelete`. -/
def CAssetBrowser.OnDelete (env : DialogEnv) (assets : List CAsset) : DeleteOutcome :=
  if env.hasAnyReverseDependencies assets then
    if env.reverseDepsDialogConfirmed then
      { dialogShown := some .reverseDependencies, deletedAssets := some assets }
    else
      { dialogShown := some .reverseDependencies, deletedAssets := none }
  else if env.questionDialogYes then
    { dialogShown := some .question, deletedAssets := some assets }
  else
    { dialogShown := some .question, deletedAssets := none }

/-- One in-place edit (rename) attempt as seen by the `edit` overrides:
the guard data read from the index and the trigger. -/
structure EditAttempt where
  triggerEnabled : Bool
  indexValid : Bool
  isAssetRow : Bool
  hasAssetPtr : Bool
  asset : CAsset
  hasEvent : Bool

/-- Observable outcome of an `edit` override: the returned flag, whether
the inherited `edit` (which actually starts the item editor) was invoked,
whether `UserConfirmsRenaming` was consulted, and whether the override
accepted the triggering event itself. -/
structure EditOutcome where
  returnValue : Bool
  baseEditCalled : Bool
  confirmationRequested : Bool
  eventAccepted : Bool

/-- `QAssetDetailsView::edit`.  `baseEditResult` stands for the result of
`QAdvancedTreeView::edit`. -/
def QAssetDetailsView.edit (env : DialogEnv) (c : EditAttempt)
    (baseEditResult : Bool) : EditOutcome :=
  if c.triggerEnabled && c.indexValid && c.isAssetRow then
    if c.hasAssetPtr && !(UserConfirmsRenaming env c.asset).confirmed then
      { returnValue := true, baseEditCalled := false,
        confirmationRequested := true, eventAccepted := c.hasEvent }
    else
      { returnValue := baseEditResult, baseEditCalled := true,
        confirmationRequested := c.hasAssetPtr, eventAccepted := false }
  else
    { returnValue := baseEditResult, baseEditCalled := true,
      confirmationRequested := false, eventAccepted := false }

/-- `CThumbnailsInternalView::edit` (same body as the details view's
override, duplicated in the source).  `baseEditResult` stands for the
result of `QListView::edit`. -/
def CThumbnailsInternalView.edit (env : DialogEnv) (c : EditAttempt)
    (baseEditResult : Bool) : EditOutcome :=
  if c.triggerEnabled && c.indexValid && c.isAssetRow then
    if c.hasAssetPtr && !(UserConfirmsRenaming env c.asset).confirmed then
      { returnValue := true, baseEditCalled := false,
        confirmationRequested := true, eventAccepted := c.hasEvent }
    else
      { returnValue := baseEditResult, baseEditCalled := true,
        confirmationRequested := c.hasAssetPtr, eventAccepted := false }
  else
    { returnValue := baseEditResult, baseEditCalled := true,
      confirmationRequested := false, eventAccepted := false }

/-! ## Import (`CAssetBrowser::OnImport`) -/

/-- Environment of `OnImport`: the registered importer list
(`CAssetManager::GetAssetImporters`, only its size is read), the files
picked in `CSystemFileDialog::RunImportMultipleFiles`, and
`CAssetDropHandler::CanImportAny`. -/
structure ImportEnv where
  assetImporters : List String
  runImportMultipleFiles : List String
  canImportAny : List String → Bool

/-- The warning surfaced on an `OnImport` failure path:
`CQuestionDialog::SWarning("No importers registered", ...)` or the
`CryWarning` "Cannot import file(s)" message. -/
inductive ImportWarning where
  | noImportersRegistered : ImportWarning
  | cannotImportFile : ImportWarning
deriving DecidableEq

/-- The finalize step handed to `ThreadingUtils::AsyncFinalize`. -/
inductive ImportFinalize where
  | mergeAssetsIntoAssetManager : ImportFinalize
deriving DecidableEq

/-- Observable outcome of `OnImport`: the warning shown (if any), whether
the file dialog was opened, the file list handed to the asynchronous
background task (if one was scheduled), and its finalize step. -/
structure ImportOutcome where
  warningShown : Option ImportWarning
  fileDialogOpened : Bool
  asyncImportScheduled : Option (List String)
  finalizeAction : Option ImportFinalize

/-- `CAssetBrowser::OnImport`.  The recent-import-path project property
and the output-directory import parameter only feed the external file
dialog and drop handler and carry no modelled state. -/
def CAssetBrowser.OnImport (env : ImportEnv) : ImportOutcome :=
  if env.assetImporters.length = 0 then
    { warningShown := some .noImportersRegistered, fileDialogOpened := false,
      asyncImportScheduled := none, finalizeAction := none }
  else
    let filePaths := env.runImportMultipleFiles
    if filePaths.isEmpty then
      { warningShown := none, fileDialogOpened := true,
        asyncImportScheduled := none, finalizeAction := none }
    else if env.canImportAny filePaths then
      { warningShown := none, fileDialogOpened := true,
        asyncImportScheduled := some filePaths,
        finalizeAction := some .mergeAssetsIntoAssetManager }
    else
      { warningShown := some .cannotImportFile, fileDialogOpened := true,
        asyncImportScheduled := none, finalizeAction := none }

/-! ## Batched visible-thumbnail refresh -/

/-- `CThumbnailsInternalView::TouchVisibleAssetsBatched`, abstracted to
the sequence of row indices the batch chain examines (the per-row
thumbnail touching is guarded by external Qt visibility geometry).  A
call iterates `i` from `min(lastRow, firstBatchRow + 8)` down to
`firstBatchRow` and, when rows remain, schedules exactly one
continuation through a zero-delay single-shot timer starting at the row
after the last processed one. -/
def touchVisibleAssetsBatched (rowCount firstBatchRow : Nat) : List Nat :=
  if rowCount = 0 then []
  else
    let batchSize := 8
    let lastRow := rowCount - 1
    let lastBatchRow := min lastRow (firstBatchRow + batchSize)
    let batch := (List.range' firstBatchRow (lastBatchRow + 1 - firstBatchRow)).reverse
    if lastBatchRow < lastRow then
      batch ++ touchVisibleAssetsBatched rowCount (lastBatchRow + 1)
    else batch
termination_by rowCount - firstBatchRow
decreasing_by
  simp only [Nat.min_def] at *
  split_ifs at * <;> omega

/-- `CThumbnailsInternalView::TouchVisibleAssets`: starts the chain at
row 0. -/
def TouchVisibleAssets (rowCount : Nat) : List Nat :=
  touchVisibleAssetsBatched rowCount 0

/-! ## Reachable navigation states (claim C5)

The constructed state is the member-initializer state of the
`CAssetBrowser` constructor (`m_navigationIndex = -1`, empty history,
`m_dontPushNavHistory = false`) together with the disabled back/forward
buttons set up in `InitViews`; every later `InitViews` step that touches
navigation (including the initial folder selection push) is one of the
three events.  A forward event can only fire from the forward button,
which is enabled exactly when `forwardButtonEnabled` holds. -/
inductive NavReachable : CAssetBrowser → Prop where
  | constructed (s : CAssetBrowser)
      (h1 : s.m_navigationHistory = [])
      (h2 : s.m_navigationIndex = -1)
      (h3 : s.backButtonEnabled = false)
      (h4 : s.forwardButtonEnabled = false)
      (h5 : s.m_dontPushNavHistory = false) : NavReachable s
  | select (s : CAssetBrowser) (f : List String) :
      NavReachable s → NavReachable (s.OnFolderSelectionChanged f)
  | back (s : CAssetBrowser) :
      NavReachable s → NavReachable s.OnNavBack.1
  | forward (s : CAssetBrowser) :
      NavReachable s → s.forwardButtonEnabled = true →
      NavReachable s.OnNavForward.1

/-! ## Concrete sample values (used by witnesses) -/

/-- The browser state right after construction: the constructor's member
initializers, the folder filter model built as
`CAssetFolderFilterModel(false, true, this)`, and the widget state set up
in `InitViews` before the initial folder selection. -/
def constructedBrowser : CAssetBrowser where
  m_viewMode := ViewMode.Max
  m_recursiveView := false
  m_recursiveSearch := true
  m_navigationHistory := []
  m_navigationIndex := -1
  m_dontPushNavHistory := false
  searchBoxEmpty := true
  hasActiveFilters := false
  folderFilterRecursive := false
  folderFilterShowFolders := true
  acceptedFolders := []
  backButtonEnabled := false
  forwardButtonEnabled := false
  mainViewSplitterState := ""
  foldersSplitterState := ""
  mainViewSplitterVertical := false
  thumbnailViewVisible := true
  detailsViewVisible := false
  foldersViewVisible := true
  filtersState := []
  detailsViewState := []
  thumbnailViewState := []
  foldersViewState := []
  breadcrumbsVisible := true
  multipleFoldersLabelVisible := false
  breadcrumbsFolder := ""
  thumbnailRootFolder := none
  detailsRootFolder := none
  viewModeButtonsChecked := [false, true, false, false]

/-- A folder row, as used by the sorting witness. -/
def sampleFolderRow : SortRowData where
  rowType := .eAssetModelRow_Folder
  sortData := 1
  internalPointer := 10

/-- An asset row, as used by the sorting witness. -/
def sampleAssetRow : SortRowData where
  rowType := .eAssetModelRow_Asset
  sortData := 0
  internalPointer := 20

/-- A sample asset for the dialog witnesses. -/
def sampleAsset : CAsset where
  name := "textures/rock"

/-- A dialog environment with no reverse dependencies where the user
declines the plain question dialog. -/
def declineEnv : DialogEnv where
  hasAnyReverseDependencies := fun _ => false
  reverseDepsDialogConfirmed := false
  questionDialogYes := false

/-- A dialog environment with reverse dependencies where the user
confirms the reverse-dependencies dialog. -/
def confirmRevEnv : DialogEnv where
  hasAnyReverseDependencies := fun _ => true
  reverseDepsDialogConfirmed := true
  questionDialogYes := false

/-- Import environment with no registered importers. -/
def noImportersEnv : ImportEnv where
  assetImporters := []
  runImportMultipleFiles := []
  canImportAny := fun _ => false

/-- Import environment whose chosen file cannot be imported. -/
def badFileEnv : ImportEnv where
  assetImporters := ["fbx"]
  runImportMultipleFiles := ["notes.txt"]
  canImportAny := fun _ => false

/-- Import environment whose chosen file can be imported. -/
def goodFileEnv : ImportEnv where
  assetImporters := ["fbx"]
  runImportMultipleFiles := ["mesh.fbx"]
  canImportAny := fun _ => true

/-! ## Additional sample states for witnesses -/

/-- An edit attempt on a valid asset row with an attached event. -/
def sampleEditAttempt : EditAttempt where
  triggerEnabled := true
  indexValid := true
  isAssetRow := true
  hasAssetPtr := true
  asset := sampleAsset
  hasEvent := true

/-- A browser with a two-entry navigation history sitting on the last
entry. -/
def navBrowser : CAssetBrowser :=
  { constructedBrowser with
    m_navigationHistory := [["Assets/a"], ["Assets/b"]]
    m_navigationIndex := 1
    backButtonEnabled := true
    forwardButtonEnabled := false }

/-! # Theorems -/

/-! ## Map helper lemmas -/

theorem qvalue_qinsert_self (m : QVariantMap) (k : String) (v : QVariant) :
    qvalue (qinsert m k v) k = v := by
  simp [qvalue, qinsert]

theorem qvalue_filter_ne (k k2 : String) (h : k ≠ k2) (m : QVariantMap) :
    qvalue (m.filter fun e => e.1 ≠ k) k2 = qvalue m k2 := by
  induction m with
  | nil => rfl
  | cons e rest ih =>
    obtain ⟨k3, v3⟩ := e
    by_cases h3 : k3 = k
    · subst h3
      simp only [List.filter]
      rw [qvalue]
      rw [if_neg h]
      simpa using ih
    · have hd : decide (k3 = k) = false := by simp [h3]
      simp only [List.filter, decide_not, hd, Bool.not_false]
      by_cases h4 : k3 = k2
      · subst h4
        rw [qvalue, qvalue, if_pos rfl, if_pos rfl]
      · rw [qvalue, qvalue, if_neg h4, if_neg h4]
        simpa [decide_not] using ih

theorem qvalue_qinsert_ne (k k2 : String) (h : k ≠ k2) (m : QVariantMap)
    (v : QVariant) : qvalue (qinsert m k v) k2 = qvalue m k2 := by
  rw [qinsert, qvalue, if_neg h]
  exact qvalue_filter_ne k k2 h m

/-! ## C1: folder-before-asset sorting -/

/-- C1: `SortFilterProxyModel::lessThan` on two rows of different type
(one folder, one asset) returns `true` exactly when the left row is the
folder, independently of the compared column data; consequently, in any
list that is sorted ascending with respect to `lessThan` (no later row
compares less-than an earlier row), every row preceding a folder row is
itself a folder row, so all folders precede all assets. -/
theorem lessThan_folder_before_asset
    (baseLessThan : SortRowData → SortRowData → Bool) (left right : SortRowData)
    (hneq : left.rowType ≠ right.rowType)
    (rows : List SortRowData)
    (hsorted : rows.Pairwise
      (fun a b => SortFilterProxyModel.lessThan baseLessThan b a = false))
    (i j : Fin rows.length) (hij : i < j)
    (hj : (rows.get j).rowType = .eAssetModelRow_Folder) :
    (SortFilterProxyModel.lessThan baseLessThan left right = true ↔
      left.rowType = .eAssetModelRow_Folder) ∧
    (rows.get i).rowType = .eAssetModelRow_Folder := by
  constructor
  · rw [SortFilterProxyModel.lessThan, if_neg hneq]
    simp
  · by_contra hi
    have h := List.pairwise_iff_get.mp hsorted i j hij
    have hne2 : (rows.get j).rowType ≠ (rows.get i).rowType := by
      rw [hj]
      intro hh
      exact hi hh.symm
    rw [SortFilterProxyModel.lessThan, if_neg hne2, hj] at h
    simp at h

/-- Witness for C1 at a concrete sorted list of two folder rows and a
concrete folder/asset pair. -/
theorem lessThan_folder_before_asset_witness :
    (SortFilterProxyModel.lessThan (fun _ _ => false) sampleFolderRow sampleAssetRow
        = true ↔ sampleFolderRow.rowType = .eAssetModelRow_Folder) ∧
    ([sampleFolderRow, sampleFolderRow].get (⟨0, by decide⟩ : Fin 2)).rowType
      = .eAssetModelRow_Folder :=
  lessThan_folder_before_asset (fun _ _ => false) sampleFolderRow sampleAssetRow
    (by decide) [sampleFolderRow, sampleFolderRow]
    (by simp [List.pairwise_cons, SortFilterProxyModel.lessThan, sampleFolderRow])
    ⟨0, by decide⟩ ⟨1, by decide⟩ (by decide) (by decide)

/-! ## C2: delete confirmation -/

/-- C2: for a non-empty asset list, `OnDelete` first shows a confirmation
dialog — the reverse-dependencies dialog when the asset manager reports
reverse dependencies, the plain question dialog otherwise — and calls
`DeleteAssetsWithFiles` with exactly the given assets if and only if the
user confirms; on decline nothing is deleted. -/
theorem onDelete_requires_confirmation (env : DialogEnv) (assets : List CAsset)
    (hne : assets ≠ []) :
    (CAssetBrowser.OnDelete env assets).dialogShown =
      some (if env.hasAnyReverseDependencies assets then
              ConfirmationDialog.reverseDependencies
            else ConfirmationDialog.question) ∧
    ((CAssetBrowser.OnDelete env assets).deletedAssets = some assets ↔
      (if env.hasAnyReverseDependencies assets then env.reverseDepsDialogConfirmed
       else env.questionDialogYes) = true) ∧
    ((if env.hasAnyReverseDependencies assets then env.reverseDepsDialogConfirmed
      else env.questionDialogYes) = false →
      (CAssetBrowser.OnDelete env assets).deletedAssets = none) := by
  cases h1 : env.hasAnyReverseDependencies assets <;>
    cases h2 : env.reverseDepsDialogConfirmed <;>
      cases h3 : env.questionDialogYes <;>
        simp [CAssetBrowser.OnDelete, h1, h2, h3]

/-- Witness for C2: deleting one asset with no reverse dependencies while
the user answers No shows the question dialog and deletes nothing. -/
theorem onDelete_requires_confirmation_witness :
    (CAssetBrowser.OnDelete declineEnv [sampleAsset]).dialogShown =
      some (if declineEnv.hasAnyReverseDependencies [sampleAsset] then
              ConfirmationDialog.reverseDependencies
            else ConfirmationDialog.question) ∧
    ((CAssetBrowser.OnDelete declineEnv [sampleAsset]).deletedAssets = some [sampleAsset] ↔
      (if declineEnv.hasAnyReverseDependencies [sampleAsset] then
        declineEnv.reverseDepsDialogConfirmed
       else declineEnv.questionDialogYes) = true) ∧
    ((if declineEnv.hasAnyReverseDependencies [sampleAsset] then
        declineEnv.reverseDepsDialogConfirmed
      else declineEnv.questionDialogYes) = false →
      (CAssetBrowser.OnDelete declineEnv [sampleAsset]).deletedAssets = none) :=
  onDelete_requires_confirmation declineEnv [sampleAsset] (List.cons_ne_nil _ _)

/-! ## C3: rename confirmation in the edit overrides -/

/-- C3: an in-place rename attempt on a valid asset row consults
`UserConfirmsRenaming` (which shows the reverse-dependencies dialog when
the asset has reverse dependencies and the plain question dialog
otherwise); when the user declines, both the details view's and the
thumbnail view's `edit` override return `true` without invoking the
inherited `edit`, so the editor never starts. -/
theorem edit_rename_requires_confirmation (env : DialogEnv) (c : EditAttempt)
    (baseEditResult : Bool)
    (h1 : c.triggerEnabled = true) (h2 : c.indexValid = true)
    (h3 : c.isAssetRow = true) (h4 : c.hasAssetPtr = true)
    (hdecline : (UserConfirmsRenaming env c.asset).confirmed = false) :
    (UserConfirmsRenaming env c.asset).dialogShown =
      (if env.hasAnyReverseDependencies [c.asset] then
        ConfirmationDialog.reverseDependencies
       else ConfirmationDialog.question) ∧
    QAssetDetailsView.edit env c baseEditResult =
      { returnValue := true, baseEditCalled := false,
        confirmationRequested := true, eventAccepted := c.hasEvent } ∧
    CThumbnailsInternalView.edit env c baseEditResult =
      { returnValue := true, baseEditCalled := false,
        confirmationRequested := true, eventAccepted := c.hasEvent } := by
  refine ⟨?_, ?_, ?_⟩
  · cases hh : env.hasAnyReverseDependencies [c.asset] <;>
      simp [UserConfirmsRenaming, hh]
  · simp [QAssetDetailsView.edit, h1, h2, h3, h4, hdecline]
  · simp [CThumbnailsInternalView.edit, h1, h2, h3, h4, hdecline]

/-- Witness for C3: a declined rename of a dependency-free asset in both
views. -/
theorem edit_rename_requires_confirmation_witness :
    (UserConfirmsRenaming declineEnv sampleEditAttempt.asset).dialogShown =
      (if declineEnv.hasAnyReverseDependencies [sampleEditAttempt.asset] then
        ConfirmationDialog.reverseDependencies
       else ConfirmationDialog.question) ∧
    QAssetDetailsView.edit declineEnv sampleEditAttempt false =
      { returnValue := true, baseEditCalled := false,
        confirmationRequested := true, eventAccepted := sampleEditAttempt.hasEvent } ∧
    CThumbnailsInternalView.edit declineEnv sampleEditAttempt false =
      { returnValue := true, baseEditCalled := false,
        confirmationRequested := true, eventAccepted := sampleEditAttempt.hasEvent } :=
  edit_rename_requires_confirmation declineEnv sampleEditAttempt false
    rfl rfl rfl rfl (by decide)

/-! ## C9: import failure paths -/

/-- C9: `OnImport` never imports on a failure path: with no registered
importers it shows the modal warning and returns before opening the file
dialog; when the chosen files cannot be imported it surfaces the
"Cannot import file" warning and schedules no import; when import is
possible it schedules the asynchronous import task whose finalize step
merges the resulting assets into the asset manager. -/
theorem onImport_failure_paths (env : ImportEnv) :
    (env.assetImporters.length = 0 →
      (CAssetBrowser.OnImport env).warningShown = some .noImportersRegistered ∧
      (CAssetBrowser.OnImport env).fileDialogOpened = false ∧
      (CAssetBrowser.OnImport env).asyncImportScheduled = none) ∧
    (env.assetImporters.length ≠ 0 → env.runImportMultipleFiles ≠ [] →
      env.canImportAny env.runImportMultipleFiles = false →
      (CAssetBrowser.OnImport env).warningShown = some .cannotImportFile ∧
      (CAssetBrowser.OnImport env).asyncImportScheduled = none ∧
      (CAssetBrowser.OnImport env).finalizeAction = none) ∧
    (env.assetImporters.length ≠ 0 → env.runImportMultipleFiles ≠ [] →
      env.canImportAny env.runImportMultipleFiles = true →
      (CAssetBrowser.OnImport env).warningShown = none ∧
      (CAssetBrowser.OnImport env).asyncImportScheduled =
        some env.runImportMultipleFiles ∧
      (CAssetBrowser.OnImport env).finalizeAction =
        some .mergeAssetsIntoAssetManager) := by
  refine ⟨fun hz => ?_, fun hnz hne hcant => ?_, fun hnz hne hcan => ?_⟩
  · simp [CAssetBrowser.OnImport, hz]
  · simp [CAssetBrowser.OnImport, hnz, hne, hcant]
  · simp [CAssetBrowser.OnImport, hnz, hne, hcan]

/-- Witness for C9 at three concrete environments: no importers, an
unimportable file, an importable file. -/
theorem onImport_failure_paths_witness :
    ((CAssetBrowser.OnImport noImportersEnv).warningShown =
        some .noImportersRegistered ∧
      (CAssetBrowser.OnImport noImportersEnv).fileDialogOpened = false ∧
      (CAssetBrowser.OnImport noImportersEnv).asyncImportScheduled = none) ∧
    ((CAssetBrowser.OnImport badFileEnv).warningShown = some .cannotImportFile ∧
      (CAssetBrowser.OnImport badFileEnv).asyncImportScheduled = none ∧
      (CAssetBrowser.OnImport badFileEnv).finalizeAction = none) ∧
    ((CAssetBrowser.OnImport goodFileEnv).warningShown = none ∧
      (CAssetBrowser.OnImport goodFileEnv).asyncImportScheduled =
        some goodFileEnv.runImportMultipleFiles ∧
      (CAssetBrowser.OnImport goodFileEnv).finalizeAction =
        some .mergeAssetsIntoAssetManager) :=
  ⟨(onImport_failure_paths noImportersEnv).1 rfl,
   (onImport_failure_paths badFileEnv).2.1 (by decide) (by decide) rfl,
   (onImport_failure_paths goodFileEnv).2.2 (by decide) (by decide) rfl⟩

/-! ## Navigation step lemmas -/

theorem updateNavigation_false_nav (s : CAssetBrowser) :
    (s.UpdateNavigation false).m_navigationHistory = s.m_navigationHistory ∧
    (s.UpdateNavigation false).m_navigationIndex = s.m_navigationIndex ∧
    (s.UpdateNavigation false).m_dontPushNavHistory = s.m_dontPushNavHistory := by
  simp [CAssetBrowser.UpdateNavigation]

theorem updateNavigation_fwd_sound (s : CAssetBrowser) (b : Bool) :
    (s.UpdateNavigation b).forwardButtonEnabled = true →
    (s.UpdateNavigation b).m_navigationIndex <
      ((s.UpdateNavigation b).m_navigationHistory.length : Int) - 1 := by
  cases b <;> simp [CAssetBrowser.UpdateNavigation]

theorem onFolderSelectionChanged_nav (s : CAssetBrowser) (f : List String) :
    ((s.OnFolderSelectionChanged f).m_navigationHistory =
      if s.m_dontPushNavHistory then s.m_navigationHistory
      else (if s.m_navigationIndex < (s.m_navigationHistory.length : Int) - 1 then
              s.m_navigationHistory.take (s.m_navigationIndex + 1).toNat
            else s.m_navigationHistory) ++ [f]) ∧
    ((s.OnFolderSelectionChanged f).m_navigationIndex =
      if s.m_dontPushNavHistory then s.m_navigationIndex
      else s.m_navigationIndex + 1) ∧
    (s.OnFolderSelectionChanged f).m_dontPushNavHistory = s.m_dontPushNavHistory ∧
    ((s.OnFolderSelectionChanged f).forwardButtonEnabled = true →
      (s.OnFolderSelectionChanged f).m_navigationIndex <
        ((s.OnFolderSelectionChanged f).m_navigationHistory.length : Int) - 1) := by
  cases hdp : s.m_dontPushNavHistory <;>
    simp [CAssetBrowser.OnFolderSelectionChanged, CAssetBrowser.UpdateNavigation,
      hdp] <;>
    split_ifs <;> simp_all

theorem onFolderSelectionChanged_hist_dontPush (t : CAssetBrowser)
    (f : List String) (h : t.m_dontPushNavHistory = true) :
    (t.OnFolderSelectionChanged f).m_navigationHistory = t.m_navigationHistory := by
  have e := (onFolderSelectionChanged_nav t f).1
  rwa [if_pos h] at e

theorem onFolderSelectionChanged_idx_dontPush (t : CAssetBrowser)
    (f : List String) (h : t.m_dontPushNavHistory = true) :
    (t.OnFolderSelectionChanged f).m_navigationIndex = t.m_navigationIndex := by
  have e := (onFolderSelectionChanged_nav t f).2.1
  rwa [if_pos h] at e

theorem onFolderSelectionChanged_fwd_sound (t : CAssetBrowser) (f : List String) :
    (t.OnFolderSelectionChanged f).forwardButtonEnabled = true →
    (t.OnFolderSelectionChanged f).m_navigationIndex <
      ((t.OnFolderSelectionChanged f).m_navigationHistory.length : Int) - 1 :=
  (onFolderSelectionChanged_nav t f).2.2.2

theorem onNavBack_nav (s : CAssetBrowser) :
    s.OnNavBack.1.m_navigationHistory = s.m_navigationHistory ∧
    (0 ≤ s.m_navigationIndex →
      s.OnNavBack.1.m_navigationIndex = s.m_navigationIndex - 1) ∧
    (¬ 0 ≤ s.m_navigationIndex →
      s.OnNavBack.1.m_navigationIndex = s.m_navigationIndex) ∧
    s.OnNavBack.1.m_dontPushNavHistory = false ∧
    (s.OnNavBack.1.forwardButtonEnabled = true →
      s.OnNavBack.1.m_navigationIndex <
        (s.OnNavBack.1.m_navigationHistory.length : Int) - 1 ∨
      s.forwardButtonEnabled = true) := by
  simp only [CAssetBrowser.OnNavBack]
  by_cases h0 : s.m_navigationIndex ≥ 0
  · simp only [if_pos h0]
    split_ifs with h1
    · exact ⟨rfl, fun _ => rfl, fun hc => absurd h0 hc, rfl, fun hf => Or.inr hf⟩
    · refine ⟨?_, fun _ => ?_, fun hc => absurd h0 hc, rfl, fun hf => ?_⟩
      · simp only [onFolderSelectionChanged_hist_dontPush]
      · simp only [onFolderSelectionChanged_idx_dontPush]
      · left
        have h2 := onFolderSelectionChanged_fwd_sound _ _ hf
        simp only [onFolderSelectionChanged_hist_dontPush,
          onFolderSelectionChanged_idx_dontPush] at h2 ⊢
        exact h2
  · simp only [if_neg h0]
    split_ifs with h1
    · exact ⟨rfl, fun hc => absurd hc h0, fun _ => rfl, rfl, fun hf => Or.inr hf⟩
    · refine ⟨?_, fun hc => absurd hc h0, fun _ => ?_, rfl, fun hf => ?_⟩
      · simp only [onFolderSelectionChanged_hist_dontPush]
      · simp only [onFolderSelectionChanged_idx_dontPush]
      · left
        have h2 := onFolderSelectionChanged_fwd_sound _ _ hf
        simp only [onFolderSelectionChanged_hist_dontPush,
          onFolderSelectionChanged_idx_dontPush] at h2 ⊢
        exact h2

theorem onNavForward_nav (s : CAssetBrowser) :
    s.OnNavForward.1.m_navigationHistory = s.m_navigationHistory ∧
    s.OnNavForward.1.m_navigationIndex = s.m_navigationIndex + 1 ∧
    s.OnNavForward.1.m_dontPushNavHistory = false ∧
    (s.OnNavForward.1.forwardButtonEnabled = true →
      s.OnNavForward.1.m_navigationIndex <
        (s.OnNavForward.1.m_navigationHistory.length : Int) - 1) := by
  simp only [CAssetBrowser.OnNavForward]
  refine ⟨?_, ?_, by trivial, fun hf => ?_⟩
  · simp only [onFolderSelectionChanged_hist_dontPush]
  · simp only [onFolderSelectionChanged_idx_dontPush]
  · have h2 := onFolderSelectionChanged_fwd_sound _ _ hf
    simp only [onFolderSelectionChanged_hist_dontPush,
      onFolderSelectionChanged_idx_dontPush] at h2 ⊢
    exact h2

/-! ## C6: UpdateNavigation button state -/

/-- C6: after `UpdateNavigation`, the back button is enabled iff the
history is non-empty and the index is greater than -1, and the forward
button is enabled iff the history is non-empty and the index is below
the last history position; with `clearHistory` the history becomes
empty, the index -1, and both buttons are disabled. -/
theorem updateNavigation_button_state (s : CAssetBrowser) (clearHistory : Bool) :
    ((s.UpdateNavigation clearHistory).backButtonEnabled = true ↔
      0 < (s.UpdateNavigation clearHistory).m_navigationHistory.length ∧
      -1 < (s.UpdateNavigation clearHistory).m_navigationIndex) ∧
    ((s.UpdateNavigation clearHistory).forwardButtonEnabled = true ↔
      (s.UpdateNavigation clearHistory).m_navigationHistory.length ≠ 0 ∧
      (s.UpdateNavigation clearHistory).m_navigationIndex <
        ((s.UpdateNavigation clearHistory).m_navigationHistory.length : Int) - 1) ∧
    (clearHistory = true →
      (s.UpdateNavigation clearHistory).m_navigationHistory = [] ∧
      (s.UpdateNavigation clearHistory).m_navigationIndex = -1 ∧
      (s.UpdateNavigation clearHistory).backButtonEnabled = false ∧
      (s.UpdateNavigation clearHistory).forwardButtonEnabled = false) := by
  cases clearHistory <;> simp [CAssetBrowser.UpdateNavigation]

/-- Witness for C6: clearing the history of a browser with two history
entries disables both buttons. -/
theorem updateNavigation_button_state_witness :
    ((navBrowser.UpdateNavigation true).backButtonEnabled = true ↔
      0 < (navBrowser.UpdateNavigation true).m_navigationHistory.length ∧
      -1 < (navBrowser.UpdateNavigation true).m_navigationIndex) ∧
    ((navBrowser.UpdateNavigation true).forwardButtonEnabled = true ↔
      (navBrowser.UpdateNavigation true).m_navigationHistory.length ≠ 0 ∧
      (navBrowser.UpdateNavigation true).m_navigationIndex <
        ((navBrowser.UpdateNavigation true).m_navigationHistory.length : Int) - 1) ∧
    (true = true →
      (navBrowser.UpdateNavigation true).m_navigationHistory = [] ∧
      (navBrowser.UpdateNavigation true).m_navigationIndex = -1 ∧
      (navBrowser.UpdateNavigation true).backButtonEnabled = false ∧
      (navBrowser.UpdateNavigation true).forwardButtonEnabled = false) :=
  updateNavigation_button_state navBrowser true

/-! ## C7: OnNavBack frame effect -/

/-- C7: `OnNavBack` never modifies the history list, decrements the
index when it is at least 0, and then either clears the folder selection
(when the index has become -1) or selects the folders stored at the new
index. -/
theorem onNavBack_frame (s : CAssetBrowser) :
    s.OnNavBack.1.m_navigationHistory = s.m_navigationHistory ∧
    (0 ≤ s.m_navigationIndex →
      s.OnNavBack.1.m_navigationIndex = s.m_navigationIndex - 1) ∧
    (s.OnNavBack.1.m_navigationIndex = -1 →
      s.OnNavBack.2 = SelectionEffect.clearSelection) ∧
    (s.OnNavBack.1.m_navigationIndex ≠ -1 →
      s.OnNavBack.2 = SelectionEffect.selectFolders
        (s.m_navigationHistory.getD s.OnNavBack.1.m_navigationIndex.toNat [])) := by
  obtain ⟨e1, e2, e3, _, _⟩ := onNavBack_nav s
  refine ⟨e1, e2, ?_, ?_⟩ <;>
  · simp only [CAssetBrowser.OnNavBack] at *
    by_cases h0 : s.m_navigationIndex ≥ 0 <;>
      [simp only [if_pos h0] at *; simp only [if_neg h0] at *] <;>
      split_ifs at * with h1 <;> simp_all

/-- Witness for C7: going back from the last of two history entries
selects the folders stored at index 0 and keeps the history intact. -/
theorem onNavBack_frame_witness :
    navBrowser.OnNavBack.1.m_navigationHistory = navBrowser.m_navigationHistory ∧
    navBrowser.OnNavBack.1.m_navigationIndex = navBrowser.m_navigationIndex - 1 ∧
    navBrowser.OnNavBack.2 = SelectionEffect.selectFolders
      (navBrowser.m_navigationHistory.getD
        navBrowser.OnNavBack.1.m_navigationIndex.toNat []) :=
  ⟨(onNavBack_frame navBrowser).1,
   (onNavBack_frame navBrowser).2.1 (by decide),
   (onNavBack_frame navBrowser).2.2.2 (by decide)⟩

/-! ## C5: navigation history invariant -/

theorem navReachable_inv (s : CAssetBrowser) (h : NavReachable s) :
    (-1 ≤ s.m_navigationIndex ∧
      s.m_navigationIndex ≤ (s.m_navigationHistory.length : Int) - 1) ∧
    s.m_dontPushNavHistory = false ∧
    (s.forwardButtonEnabled = true →
      s.m_navigationIndex < (s.m_navigationHistory.length : Int) - 1) := by
  induction h with
  | constructed s h1 h2 h3 h4 h5 =>
    refine ⟨?_, h5, ?_⟩
    · rw [h1, h2]
      norm_num
    · intro hf
      rw [h4] at hf
      exact absurd hf (by simp)
  | select s f _ ih =>
    obtain ⟨⟨i1, i2⟩, i3, _⟩ := ih
    obtain ⟨e1, e2, e3, e4⟩ := onFolderSelectionChanged_nav s f
    rw [if_neg (by simp [i3])] at e1
    rw [if_neg (by simp [i3])] at e2
    refine ⟨⟨?_, ?_⟩, by rw [e3, i3], e4⟩
    · rw [e2]
      omega
    · rw [e1, e2]
      by_cases hc : s.m_navigationIndex < (s.m_navigationHistory.length : Int) - 1
      · rw [if_pos hc]
        simp only [List.length_append, List.length_take, List.length_cons,
          List.length_nil]
        omega
      · rw [if_neg hc]
        simp only [List.length_append, List.length_cons, List.length_nil]
        omega
  | back s _ ih =>
    obtain ⟨⟨i1, i2⟩, i3, i4⟩ := ih
    obtain ⟨e1, e2, e3, e4, e5⟩ := onNavBack_nav s
    refine ⟨⟨?_, ?_⟩, e4, ?_⟩
    · by_cases h0 : 0 ≤ s.m_navigationIndex
      · rw [e2 h0]; omega
      · rw [e3 h0]; omega
    · by_cases h0 : 0 ≤ s.m_navigationIndex
      · rw [e2 h0, e1]; omega
      · rw [e3 h0, e1]; omega
    · intro hf
      rcases e5 hf with h | h
      · exact h
      · have := i4 h
        rw [e1]
        by_cases h0 : 0 ≤ s.m_navigationIndex
        · rw [e2 h0]; omega
        · rw [e3 h0]; omega
  | forward s _ hfw ih =>
    obtain ⟨⟨i1, i2⟩, i3, i4⟩ := ih
    obtain ⟨e1, e2, e3, e4⟩ := onNavForward_nav s
    have hlt := i4 hfw
    refine ⟨⟨?_, ?_⟩, e3, e4⟩
    · rw [e2]; omega
    · rw [e2, e1]; omega

/-- C5: starting from the constructed state, any sequence of
folder-selection changes, back navigations, and forward navigations
taken only while the forward button is enabled keeps the navigation
index between -1 and the last history position; moreover a
history-pushing folder-selection change first discards every history
entry past the current index, then appends the new selection and
increments the index. -/
theorem navigation_history_invariant (s : CAssetBrowser) (h : NavReachable s)
    (f : List String) :
    (-1 ≤ s.m_navigationIndex ∧
      s.m_navigationIndex ≤ (s.m_navigationHistory.length : Int) - 1) ∧
    ((s.OnFolderSelectionChanged f).m_navigationHistory =
      s.m_navigationHistory.take (s.m_navigationIndex + 1).toNat ++ [f] ∧
     (s.OnFolderSelectionChanged f).m_navigationIndex =
      s.m_navigationIndex + 1) := by
  obtain ⟨⟨i1, i2⟩, i3, _⟩ := navReachable_inv s h
  obtain ⟨e1, e2, _, _⟩ := onFolderSelectionChanged_nav s f
  rw [if_neg (by simp [i3])] at e1
  rw [if_neg (by simp [i3])] at e2
  refine ⟨⟨i1, i2⟩, ?_, e2⟩
  rw [e1]
  by_cases hc : s.m_navigationIndex < (s.m_navigationHistory.length : Int) - 1
  · rw [if_pos hc]
  · rw [if_neg hc]
    have hlen : (s.m_navigationIndex + 1).toNat = s.m_navigationHistory.length := by
      omega
    rw [hlen, List.take_length]

/-- Witness for C5: the constructed browser state with an initial folder
selection push. -/
theorem navigation_history_invariant_witness :
    (-1 ≤ constructedBrowser.m_navigationIndex ∧
      constructedBrowser.m_navigationIndex ≤
        (constructedBrowser.m_navigationHistory.length : Int) - 1) ∧
    ((constructedBrowser.OnFolderSelectionChanged ["Assets"]).m_navigationHistory =
      constructedBrowser.m_navigationHistory.take
        (constructedBrowser.m_navigationIndex + 1).toNat ++ [["Assets"]] ∧
     (constructedBrowser.OnFolderSelectionChanged ["Assets"]).m_navigationIndex =
      constructedBrowser.m_navigationIndex + 1) :=
  navigation_history_invariant constructedBrowser
    (NavReachable.constructed constructedBrowser rfl rfl rfl rfl rfl) ["Assets"]

/-! ## C8: UpdateModels and the recursive view/search toggles -/

/-- C8: when a search or filter is active, the recursive-search flag is
set and the folder filter model is not yet recursive, `UpdateModels`
switches the model to recursive mode with folders hidden; when no search
is active (given the model's folder-visibility invariant
`showFolders = !recursive`, established by the model's construction as
`CAssetFolderFilterModel(false, true, this)` and preserved by
`UpdateModels` itself), the model's recursive flag equals the
recursive-view flag and folders are shown exactly when the view is not
recursive.  `SetRecursiveView`/`SetRecursiveSearch` are no-ops when
called with the current value and otherwise set the flag and run
`UpdateModels`. -/
theorem updateModels_recursive_toggles (s : CAssetBrowser) (b : Bool) :
    ((!s.searchBoxEmpty || s.hasActiveFilters) = true → s.m_recursiveSearch = true →
      s.folderFilterRecursive = false →
      s.UpdateModels.folderFilterRecursive = true ∧
      s.UpdateModels.folderFilterShowFolders = false) ∧
    ((!s.searchBoxEmpty || s.hasActiveFilters) = false →
      s.folderFilterShowFolders = !s.folderFilterRecursive →
      s.UpdateModels.folderFilterRecursive = s.m_recursiveView ∧
      s.UpdateModels.folderFilterShowFolders = !s.m_recursiveView) ∧
    (s.UpdateModels.folderFilterShowFolders = !s.UpdateModels.folderFilterRecursive ∨
      ¬ s.folderFilterShowFolders = !s.folderFilterRecursive) ∧
    s.SetRecursiveView s.m_recursiveView = s ∧
    s.SetRecursiveSearch s.m_recursiveSearch = s ∧
    (b ≠ s.m_recursiveView →
      s.SetRecursiveView b =
        CAssetBrowser.UpdateModels { s with m_recursiveView := b }) ∧
    (b ≠ s.m_recursiveSearch →
      s.SetRecursiveSearch b =
        CAssetBrowser.UpdateModels { s with m_recursiveSearch := b }) := by
  refine ⟨fun h1 h2 h3 => ?_, fun h1 h2 => ?_, ?_, ?_, ?_, fun hb => ?_, fun hb => ?_⟩
  · simp [CAssetBrowser.UpdateModels, h1, h2, h3]
  · rcases hr : s.folderFilterRecursive <;>
      rcases hv : s.m_recursiveView <;>
        simp_all [CAssetBrowser.UpdateModels]
  · by_cases hinv : s.folderFilterShowFolders = !s.folderFilterRecursive
    · left
      simp only [CAssetBrowser.UpdateModels]
      split_ifs <;> simp_all
    · right
      exact hinv
  · simp [CAssetBrowser.SetRecursiveView]
  · simp [CAssetBrowser.SetRecursiveSearch]
  · rw [CAssetBrowser.SetRecursiveView, if_pos (by simp [Ne.symm hb])]
  · rw [CAssetBrowser.SetRecursiveSearch, if_pos (by simp [Ne.symm hb])]

/-- Witness for C8: the freshly constructed browser (no active search,
consistent folder filter model, recursive view off). -/
theorem updateModels_recursive_toggles_witness :
    (constructedBrowser.UpdateModels.folderFilterRecursive =
        constructedBrowser.m_recursiveView ∧
      constructedBrowser.UpdateModels.folderFilterShowFolders =
        !constructedBrowser.m_recursiveView) ∧
    constructedBrowser.SetRecursiveView constructedBrowser.m_recursiveView =
      constructedBrowser ∧
    constructedBrowser.SetRecursiveSearch constructedBrowser.m_recursiveSearch =
      constructedBrowser :=
  ⟨(updateModels_recursive_toggles constructedBrowser true).2.1 (by decide) (by decide),
   (updateModels_recursive_toggles constructedBrowser true).2.2.2.1,
   (updateModels_recursive_toggles constructedBrowser true).2.2.2.2.1⟩

/-! ## C4: layout save/restore -/

theorem setViewMode_m_viewMode (s : CAssetBrowser) (vm : Int) :
    (s.SetViewMode vm).m_viewMode = vm := by
  simp only [CAssetBrowser.SetViewMode]
  split_ifs <;> simp_all

theorem setViewMode_m_recursiveView (s : CAssetBrowser) (vm : Int) :
    (s.SetViewMode vm).m_recursiveView = s.m_recursiveView := by
  simp only [CAssetBrowser.SetViewMode]
  split_ifs <;> simp_all

theorem setViewMode_m_recursiveSearch (s : CAssetBrowser) (vm : Int) :
    (s.SetViewMode vm).m_recursiveSearch = s.m_recursiveSearch := by
  simp only [CAssetBrowser.SetViewMode]
  split_ifs <;> simp_all

theorem updateModels_m_viewMode (s : CAssetBrowser) :
    s.UpdateModels.m_viewMode = s.m_viewMode := by
  simp only [CAssetBrowser.UpdateModels]
  split_ifs <;> simp_all

theorem updateModels_m_recursiveView (s : CAssetBrowser) :
    s.UpdateModels.m_recursiveView = s.m_recursiveView := by
  simp only [CAssetBrowser.UpdateModels]
  split_ifs <;> simp_all

theorem updateModels_m_recursiveSearch (s : CAssetBrowser) :
    s.UpdateModels.m_recursiveSearch = s.m_recursiveSearch := by
  simp only [CAssetBrowser.UpdateModels]
  split_ifs <;> simp_all

theorem setRecursiveView_m_viewMode (s : CAssetBrowser) (b : Bool) :
    (s.SetRecursiveView b).m_viewMode = s.m_viewMode := by
  simp only [CAssetBrowser.SetRecursiveView]
  split_ifs <;> simp [updateModels_m_viewMode]

theorem setRecursiveView_m_recursiveView (s : CAssetBrowser) (b : Bool) :
    (s.SetRecursiveView b).m_recursiveView = b := by
  simp only [CAssetBrowser.SetRecursiveView]
  split_ifs with h
  · simp [updateModels_m_recursiveView]
  · simpa using h

theorem setRecursiveView_m_recursiveSearch (s : CAssetBrowser) (b : Bool) :
    (s.SetRecursiveView b).m_recursiveSearch = s.m_recursiveSearch := by
  simp only [CAssetBrowser.SetRecursiveView]
  split_ifs <;> simp [updateModels_m_recursiveSearch]

theorem setRecursiveSearch_m_viewMode (s : CAssetBrowser) (b : Bool) :
    (s.SetRecursiveSearch b).m_viewMode = s.m_viewMode := by
  simp only [CAssetBrowser.SetRecursiveSearch]
  split_ifs <;> simp [updateModels_m_viewMode]

theorem setRecursiveSearch_m_recursiveView (s : CAssetBrowser) (b : Bool) :
    (s.SetRecursiveSearch b).m_recursiveView = s.m_recursiveView := by
  simp only [CAssetBrowser.SetRecursiveSearch]
  split_ifs <;> simp [updateModels_m_recursiveView]

theorem setRecursiveSearch_m_recursiveSearch (s : CAssetBrowser) (b : Bool) :
    (s.SetRecursiveSearch b).m_recursiveSearch = b := by
  simp only [CAssetBrowser.SetRecursiveSearch]
  split_ifs with h
  · simp [updateModels_m_recursiveSearch]
  · simpa using h

theorem updateNavigation_m_viewMode (s : CAssetBrowser) (b : Bool) :
    (s.UpdateNavigation b).m_viewMode = s.m_viewMode := by
  cases b <;> simp [CAssetBrowser.UpdateNavigation]

theorem updateNavigation_m_recursiveView (s : CAssetBrowser) (b : Bool) :
    (s.UpdateNavigation b).m_recursiveView = s.m_recursiveView := by
  cases b <;> simp [CAssetBrowser.UpdateNavigation]

theorem updateNavigation_m_recursiveSearch (s : CAssetBrowser) (b : Bool) :
    (s.UpdateNavigation b).m_recursiveSearch = s.m_recursiveSearch := by
  cases b <;> simp [CAssetBrowser.UpdateNavigation]

theorem getLayout_value_mainViewSplitter (base : QVariantMap) (s : CAssetBrowser) :
    qvalue (CAssetBrowser.GetLayout base s) "mainViewSplitter" =
      QVariant.vBytes s.mainViewSplitterState := by
  simp only [CAssetBrowser.GetLayout]
  rw [qvalue_qinsert_ne "foldersView" "mainViewSplitter" (by decide),
    qvalue_qinsert_ne "thumbnailView" "mainViewSplitter" (by decide),
    qvalue_qinsert_ne "detailsView" "mainViewSplitter" (by decide),
    qvalue_qinsert_ne "filters" "mainViewSplitter" (by decide),
    qvalue_qinsert_ne "showFolders" "mainViewSplitter" (by decide),
    qvalue_qinsert_ne "recursiveSearch" "mainViewSplitter" (by decide),
    qvalue_qinsert_ne "recursiveView" "mainViewSplitter" (by decide),
    qvalue_qinsert_ne "viewMode" "mainViewSplitter" (by decide),
    qvalue_qinsert_ne "foldersSplitter" "mainViewSplitter" (by decide),
    qvalue_qinsert_self]

theorem getLayout_value_foldersSplitter (base : QVariantMap) (s : CAssetBrowser) :
    qvalue (CAssetBrowser.GetLayout base s) "foldersSplitter" =
      QVariant.vBytes s.foldersSplitterState := by
  simp only [CAssetBrowser.GetLayout]
  rw [qvalue_qinsert_ne "foldersView" "foldersSplitter" (by decide),
    qvalue_qinsert_ne "thumbnailView" "foldersSplitter" (by decide),
    qvalue_qinsert_ne "detailsView" "foldersSplitter" (by decide),
    qvalue_qinsert_ne "filters" "foldersSplitter" (by decide),
    qvalue_qinsert_ne "showFolders" "foldersSplitter" (by decide),
    qvalue_qinsert_ne "recursiveSearch" "foldersSplitter" (by decide),
    qvalue_qinsert_ne "recursiveView" "foldersSplitter" (by decide),
    qvalue_qinsert_ne "viewMode" "foldersSplitter" (by decide),
    qvalue_qinsert_self]

theorem getLayout_value_viewMode (base : QVariantMap) (s : CAssetBrowser) :
    qvalue (CAssetBrowser.GetLayout base s) "viewMode" =
      QVariant.vInt s.m_viewMode := by
  simp only [CAssetBrowser.GetLayout]
  rw [qvalue_qinsert_ne "foldersView" "viewMode" (by decide),
    qvalue_qinsert_ne "thumbnailView" "viewMode" (by decide),
    qvalue_qinsert_ne "detailsView" "viewMode" (by decide),
    qvalue_qinsert_ne "filters" "viewMode" (by decide),
    qvalue_qinsert_ne "showFolders" "viewMode" (by decide),
    qvalue_qinsert_ne "recursiveSearch" "viewMode" (by decide),
    qvalue_qinsert_ne "recursiveView" "viewMode" (by decide),
    qvalue_qinsert_self]

theorem getLayout_value_recursiveView (base : QVariantMap) (s : CAssetBrowser) :
    qvalue (CAssetBrowser.GetLayout base s) "recursiveView" =
      QVariant.vBool s.m_recursiveView := by
  simp only [CAssetBrowser.GetLayout]
  rw [qvalue_qinsert_ne "foldersView" "recursiveView" (by decide),
    qvalue_qinsert_ne "thumbnailView" "recursiveView" (by decide),
    qvalue_qinsert_ne "detailsView" "recursiveView" (by decide),
    qvalue_qinsert_ne "filters" "recursiveView" (by decide),
    qvalue_qinsert_ne "showFolders" "recursiveView" (by decide),
    qvalue_qinsert_ne "recursiveSearch" "recursiveView" (by decide),
    qvalue_qinsert_self]

theorem getLayout_value_recursiveSearch (base : QVariantMap) (s : CAssetBrowser) :
    qvalue (CAssetBrowser.GetLayout base s) "recursiveSearch" =
      QVariant.vBool s.m_recursiveSearch := by
  simp only [CAssetBrowser.GetLayout]
  rw [qvalue_qinsert_ne "foldersView" "recursiveSearch" (by decide),
    qvalue_qinsert_ne "thumbnailView" "recursiveSearch" (by decide),
    qvalue_qinsert_ne "detailsView" "recursiveSearch" (by decide),
    qvalue_qinsert_ne "filters" "recursiveSearch" (by decide),
    qvalue_qinsert_ne "showFolders" "recursiveSearch" (by decide),
    qvalue_qinsert_self]

theorem getLayout_value_showFolders (base : QVariantMap) (s : CAssetBrowser) :
    qvalue (CAssetBrowser.GetLayout base s) "showFolders" =
      QVariant.vBool s.foldersViewVisible := by
  simp only [CAssetBrowser.GetLayout]
  rw [qvalue_qinsert_ne "foldersView" "showFolders" (by decide),
    qvalue_qinsert_ne "thumbnailView" "showFolders" (by decide),
    qvalue_qinsert_ne "detailsView" "showFolders" (by decide),
    qvalue_qinsert_ne "filters" "showFolders" (by decide),
    qvalue_qinsert_self]

theorem getLayout_value_filters (base : QVariantMap) (s : CAssetBrowser) :
    qvalue (CAssetBrowser.GetLayout base s) "filters" =
      QVariant.vMap s.filtersState := by
  simp only [CAssetBrowser.GetLayout]
  rw [qvalue_qinsert_ne "foldersView" "filters" (by decide),
    qvalue_qinsert_ne "thumbnailView" "filters" (by decide),
    qvalue_qinsert_ne "detailsView" "filters" (by decide),
    qvalue_qinsert_self]

theorem getLayout_value_detailsView (base : QVariantMap) (s : CAssetBrowser) :
    qvalue (CAssetBrowser.GetLayout base s) "detailsView" =
      QVariant.vMap s.detailsViewState := by
  simp only [CAssetBrowser.GetLayout]
  rw [qvalue_qinsert_ne "foldersView" "detailsView" (by decide),
    qvalue_qinsert_ne "thumbnailView" "detailsView" (by decide),
    qvalue_qinsert_self]

theorem getLayout_value_thumbnailView (base : QVariantMap) (s : CAssetBrowser) :
    qvalue (CAssetBrowser.GetLayout base s) "thumbnailView" =
      QVariant.vMap s.thumbnailViewState := by
  simp only [CAssetBrowser.GetLayout]
  rw [qvalue_qinsert_ne "foldersView" "thumbnailView" (by decide),
    qvalue_qinsert_self]

theorem getLayout_value_foldersView (base : QVariantMap) (s : CAssetBrowser) :
    qvalue (CAssetBrowser.GetLayout base s) "foldersView" =
      QVariant.vMap s.foldersViewState := by
  simp only [CAssetBrowser.GetLayout]
  rw [qvalue_qinsert_self]

/-- C4: `GetLayout` returns a map holding the two splitter states, the
view mode, the recursive-view and recursive-search flags, and the filter
state under their documented keys; and for any browser states, applying
`SetLayout` to a map produced by `GetLayout` restores the view mode, the
recursive-view flag, and the recursive-search flag to the saved values. -/
theorem getLayout_setLayout_roundtrip (base : QVariantMap) (s t : CAssetBrowser) :
    qvalue (CAssetBrowser.GetLayout base s) "mainViewSplitter" =
      QVariant.vBytes s.mainViewSplitterState ∧
    qvalue (CAssetBrowser.GetLayout base s) "foldersSplitter" =
      QVariant.vBytes s.foldersSplitterState ∧
    qvalue (CAssetBrowser.GetLayout base s) "viewMode" =
      QVariant.vInt s.m_viewMode ∧
    qvalue (CAssetBrowser.GetLayout base s) "recursiveView" =
      QVariant.vBool s.m_recursiveView ∧
    qvalue (CAssetBrowser.GetLayout base s) "recursiveSearch" =
      QVariant.vBool s.m_recursiveSearch ∧
    qvalue (CAssetBrowser.GetLayout base s) "filters" =
      QVariant.vMap s.filtersState ∧
    (t.SetLayout (CAssetBrowser.GetLayout base s)).m_viewMode = s.m_viewMode ∧
    (t.SetLayout (CAssetBrowser.GetLayout base s)).m_recursiveView =
      s.m_recursiveView ∧
    (t.SetLayout (CAssetBrowser.GetLayout base s)).m_recursiveSearch =
      s.m_recursiveSearch := by
  refine ⟨getLayout_value_mainViewSplitter base s,
    getLayout_value_foldersSplitter base s,
    getLayout_value_viewMode base s,
    getLayout_value_recursiveView base s,
    getLayout_value_recursiveSearch base s,
    getLayout_value_filters base s, ?_, ?_, ?_⟩ <;>
  · simp only [CAssetBrowser.SetLayout,
      getLayout_value_mainViewSplitter, getLayout_value_foldersSplitter,
      getLayout_value_viewMode, getLayout_value_recursiveView,
      getLayout_value_recursiveSearch, getLayout_value_showFolders,
      getLayout_value_filters, getLayout_value_detailsView,
      getLayout_value_thumbnailView, getLayout_value_foldersView,
      QVariant.isValid, QVariant.toInt, QVariant.toBool, QVariant.toByteArray,
      QVariant.isMapType, QVariant.toMap]
    simp [updateNavigation_m_viewMode, updateNavigation_m_recursiveView,
      updateNavigation_m_recursiveSearch,
      setRecursiveSearch_m_viewMode, setRecursiveSearch_m_recursiveView,
      setRecursiveSearch_m_recursiveSearch,
      setRecursiveView_m_viewMode, setRecursiveView_m_recursiveView,
      setRecursiveView_m_recursiveSearch,
      setViewMode_m_viewMode, setViewMode_m_recursiveView,
      setViewMode_m_recursiveSearch]

/-! ## C10: batched visible-thumbnail refresh -/

theorem touchVisibleAssetsBatched_perm (k : Nat) :
    ∀ n first, n - first ≤ k → first < n →
      (touchVisibleAssetsBatched n first).Perm (List.range' first (n - first)) := by
  induction k with
  | zero =>
    intro n first hk hf
    omega
  | succ k ih =>
    intro n first hk hf
    rw [touchVisibleAssetsBatched]
    rw [if_neg (by omega)]
    simp only []
    by_cases hb : min (n - 1) (first + 8) < n - 1
    · rw [if_pos hb]
      have hmin : min (n - 1) (first + 8) = first + 8 := by
        simp only [Nat.min_def] at hb ⊢
        split_ifs at hb ⊢ <;> omega
      rw [hmin]
      have h9 : first + 8 + 1 - first = 9 := by omega
      have h8 : first + 8 + 1 = first + 9 := by omega
      rw [h9, h8]
      have hrec := ih n (first + 9) (by omega) (by omega)
      have happ : List.range' first 9 ++ List.range' (first + 9) (n - (first + 9)) =
          List.range' first (n - first) := by
        rw [List.range'_append_1]
        congr 1
        omega
      rw [← happ]
      exact List.Perm.append (List.reverse_perm _) hrec
    · rw [if_neg hb]
      have hmin : min (n - 1) (first + 8) = n - 1 := by
        simp only [Nat.min_def] at hb ⊢
        split_ifs at hb ⊢ <;> omega
      rw [hmin]
      have hc : n - 1 + 1 - first = n - first := by omega
      rw [hc]
      exact List.reverse_perm _

/-- C10: the chain of `TouchVisibleAssetsBatched` calls started by
`TouchVisibleAssets` examines every row index `0..rowCount-1` exactly
once: each call handles the bounded batch from its start row up to
`min(lastRow, start + 8)` and schedules at most one zero-delay
continuation at the following row, so the chain makes strict progress
and terminates after finitely many batches, visiting the rows in a
permutation of `0..rowCount-1`. -/
theorem touchVisibleAssets_visits_each_row_once (rowCount : Nat) :
    (TouchVisibleAssets rowCount).Perm (List.range rowCount) := by
  unfold TouchVisibleAssets
  rcases Nat.eq_zero_or_pos rowCount with h | h
  · subst h
    rw [touchVisibleAssetsBatched]
    simp
  · have hp := touchVisibleAssetsBatched_perm rowCount rowCount 0 (by omega) h
    simpa [List.range_eq_range'] using hp
